import Mathlib

/-!
Shallow embedding of the face-tracking overlay application in `src/App.tsx`.

The source is a single React component. Its core pieces, embedded here:
- the hat-placement computation inside `detectFace` (lines 63-90), a pure
  function of the current video dimensions and the first detected bounding
  box; JavaScript numbers are modelled with exact rationals;
- the per-tick behaviour of `detectFace` (lines 46-105), modelled as a
  transition function on an explicit application state plus a trace of
  primitive actions (detection call start/resolution, placement publish,
  tick scheduling via `requestAnimationFrame`);
- the `initialize` startup sequence (lines 108-148), `handleStart`
  (lines 163-174) and the `useEffect` cleanup (lines 152-159).

State kept in React refs/useState is flattened into one `AppState` record.
Per-tick environment facts (are the refs non-null and the video readable,
is the 2d context available, what the detector returns) form a `TickEnv`.
-/

/-- A detected face bounding box in native-frame pixels (`face.box`). -/
structure Box where
  xMin : ℚ
  yMin : ℚ
  width : ℚ
  height : ℚ
deriving DecidableEq

/-- The CSS `display` value of the hat `<img>`: `'block'` or `'none'`. -/
inductive Display where
  | block
  | none
deriving DecidableEq

/-- The `HatPosition` record of `App.tsx` lines 10-17. -/
structure HatPosition where
  top : ℚ
  left : ℚ
  width : ℚ
  height : ℚ
  transform : String
  display : Display
deriving DecidableEq

/-- The `Status` union of `App.tsx` line 19. -/
inductive Status where
  | IDLE
  | INITIALIZING_WEBCAM
  | LOADING_MODEL
  | READY
  | DETECTING
  | ERROR
deriving DecidableEq

/-- Initial `hatPosition` state (lines 29-36). -/
def initialHatPosition : HatPosition :=
  { top := 0
    left := 0
    width := 0
    height := 0
    transform := "translate(-50%, -100%)"
    display := Display.none }

/-- The video element's dimensions read each tick: rendered (display) size
`offsetWidth`/`offsetHeight` and native resolution `videoWidth`/`videoHeight`. -/
structure VideoDims where
  offsetWidth : ℚ
  offsetHeight : ℚ
  videoWidth : ℚ
  videoHeight : ℚ
deriving DecidableEq

/-- The fixed enlargement factor applied to the scaled face width
(the literal `1.5` on line 79 of `App.tsx`). -/
def K_WIDTH : ℚ := 3 / 2

/-- The hat transform string set on every successful publish (line 88). -/
def hatTransform : String := "translate(-50%, -90%) rotate(-10deg)"

/-- The hat-placement computation of `App.tsx` lines 63-90 (the
CoordinateMapper): maps the first face box, with the current scale factors,
to the published `HatPosition`. -/
def computeHatPosition (v : VideoDims) (box : Box) : HatPosition :=
  let scaleX := v.offsetWidth / v.videoWidth
  let scaleY := v.offsetHeight / v.videoHeight
  let scaledXMin := box.xMin * scaleX
  let scaledYMin := box.yMin * scaleY
  let scaledWidth := box.width * scaleX
  let hatWidth := scaledWidth * K_WIDTH
  let hatHeight := hatWidth
  let centerX := scaledXMin + scaledWidth / 2
  { top := scaledYMin
    left := centerX
    width := hatWidth
    height := hatHeight
    transform := hatTransform
    display := Display.block }

/-- Outcome of one `detectorRef.current.estimateFaces` call: a resolved list
of boxes, or a rejection (the `catch` on line 94). -/
inductive DetectResult where
  | ok (faces : List Box)
  | err
deriving DecidableEq

/-- Facts about the environment of one tick of `detectFace`:
`refsReady` is the conjunction on line 47 (`detectorRef.current`,
`videoRef.current`, `canvasRef.current` non-null and
`videoRef.current.readyState === 4`); `ctxOk` is whether
`canvas.getContext('2d')` returns a context (line 50-52); `dims` are the
video dimensions read on lines 64-65; `result` is what the detection call
would produce if it is made. -/
structure TickEnv where
  refsReady : Bool
  ctxOk : Bool
  dims : VideoDims
  result : DetectResult
deriving DecidableEq

/-- Error message set on a detection failure (line 96). -/
def detectErrorMessage : String := "Đã xảy ra lỗi trong khi nhận diện khuôn mặt."

/-- Error message set on a webcam acquisition failure (line 126). -/
def webcamErrorMessage : String := "Không thể truy cập webcam. Vui lòng cấp quyền và làm mới trang."

/-- Error message set on a model load failure (line 141). -/
def modelErrorMessage : String := "Không thể tải mô hình nhận diện. Vui lòng thử lại."

/-- Flattened application state: React state (`status`, `errorMessage`,
`hatPosition`) and refs. `pending` records whether `animationFrameId.current`
holds a not-yet-fired `requestAnimationFrame` callback (a scheduled tick).
`detectorLoaded` is `detectorRef.current !== null`. `tracksOpen` records
whether the acquired `MediaStream`'s hardware tracks are still live, and
`releaseCount` counts how many times they have been released. -/
structure AppState where
  status : Status
  errorMessage : String
  hatPosition : HatPosition
  pending : Bool
  detectorLoaded : Bool
  tracksOpen : Bool
  releaseCount : Nat
deriving DecidableEq

/-- Primitive observable actions a tick can perform, in order:
start of an `estimateFaces` call, its resolution (fulfilment or rejection),
a `setHatPosition` publish, and a `requestAnimationFrame` scheduling of
the next tick. -/
inductive TickAction where
  | detectStart
  | detectResolve
  | publish (hp : HatPosition)
  | schedule
deriving DecidableEq

/-- Continuation of a tick after the `await estimateFaces` on line 58 has
resolved (lines 59-102 plus the fall-through reschedule on line 104).
It runs against the state at resolution time, which teardown may have
changed meanwhile. On a non-empty result it publishes the computed placement
and reschedules; on an empty result it publishes the previous geometry with
`display:'none'` and reschedules; on a rejection it sets the error message
and `ERROR` status, cancels any pending frame (there is none while this tick
runs) and returns without rescheduling (line 101). -/
def resumeAfterDetect (env : TickEnv) (s : AppState) : AppState × List TickAction :=
  match env.result with
  | DetectResult.ok faces =>
    match faces with
    | face :: _ =>
      let hp := computeHatPosition env.dims face
      ({ s with hatPosition := hp, pending := true },
       [TickAction.detectResolve, TickAction.publish hp, TickAction.schedule])
    | [] =>
      let hp := { s.hatPosition with display := Display.none }
      ({ s with hatPosition := hp, pending := true },
       [TickAction.detectResolve, TickAction.publish hp, TickAction.schedule])
  | DetectResult.err =>
      ({ s with errorMessage := detectErrorMessage, status := Status.ERROR,
                pending := false },
       [TickAction.detectResolve])

/-- One tick of the `detectFace` callback (lines 46-105). Entering the
callback consumes the scheduled frame (`pending := false`). If the guard on
line 47 fails, or the 2d context is unavailable (line 52), the tick makes no
detection call and falls through to the reschedule (lines 53 and 104).
Otherwise it starts the detection call and continues in
`resumeAfterDetect`. -/
def detectFaceTick (env : TickEnv) (s : AppState) : AppState × List TickAction :=
  let s0 := { s with pending := false }
  if env.refsReady then
    if env.ctxOk then
      let r := resumeAfterDetect env s0
      (r.1, TickAction.detectStart :: r.2)
    else
      ({ s0 with pending := true }, [TickAction.schedule])
  else
    ({ s0 with pending := true }, [TickAction.schedule])

/-- Repeated firing of scheduled ticks: each element of the list is the
environment of the next tick to fire; a tick fires only while a frame is
pending. The cooperative browser event loop runs the callbacks one at a
time, so the ticks are sequenced and their action traces concatenate. -/
def runLoop : List TickEnv → AppState → AppState × List TickAction
  | [], s => (s, [])
  | e :: es, s =>
    if s.pending then
      ((runLoop es (detectFaceTick e s).1).1,
       (detectFaceTick e s).2 ++ (runLoop es (detectFaceTick e s).1).2)
    else (s, [])

/-- The `useEffect` cleanup (lines 152-159): cancel any pending animation
frame, then stop every track of the acquired stream. Stopping already
stopped hardware tracks is a no-op, so tracks are released only when still
open. -/
def teardown (s : AppState) : AppState :=
  let s1 := { s with pending := false }
  if s1.tracksOpen then
    { s1 with tracksOpen := false, releaseCount := s1.releaseCount + 1 }
  else s1

/-- Outcomes of the two startup steps: webcam acquisition (line 112) and
detector model loading (line 138). -/
structure InitEnv where
  acquireOk : Bool
  loadOk : Bool
deriving DecidableEq

/-- The `initialize` startup sequence (lines 108-148): acquire the webcam,
then load the model, then become `READY`; either failure sets the matching
error message and `ERROR` status and returns early (lines 128 and 143), so
a failed acquisition never reaches the model-loading step. -/
def initSession (env : InitEnv) (s : AppState) : AppState :=
  let s1 := { s with status := Status.INITIALIZING_WEBCAM }
  if env.acquireOk then
    let s2 := { s1 with tracksOpen := true }
    let s3 := { s2 with status := Status.LOADING_MODEL }
    if env.loadOk then
      { s3 with detectorLoaded := true, status := Status.READY }
    else
      { s3 with errorMessage := modelErrorMessage, status := Status.ERROR }
  else
    { s1 with errorMessage := webcamErrorMessage, status := Status.ERROR }

/-- The `handleStart` handler (lines 163-174): only from `READY` does it
switch to `DETECTING` and invoke `detectFace`, which begins the loop's first
tick (modelled as scheduling it). -/
def handleStart (s : AppState) : AppState :=
  if s.status = Status.READY then
    { s with status := Status.DETECTING, pending := true }
  else s

/-- The component's initial state (lines 27-36 and the initially empty
refs). -/
def initialAppState : AppState :=
  { status := Status.IDLE
    errorMessage := ""
    hatPosition := initialHatPosition
    pending := false
    detectorLoaded := false
    tracksOpen := false
    releaseCount := 0 }

/-- Serialization check on an action trace, carrying the number of in-flight
detection calls: a detection call may start only when none is in flight,
resolves the one in flight, and publishes and reschedules happen only while
no call is in flight. `serialFrom 0 tr = true` says the trace keeps at most
one detection call in flight at every point and schedules the next tick only
after the previous call has fully resolved. -/
def serialFrom : Nat → List TickAction → Bool
  | _, [] => true
  | k, TickAction.detectStart :: tr => k == 0 && serialFrom 1 tr
  | k, TickAction.detectResolve :: tr => k == 1 && serialFrom 0 tr
  | k, TickAction.publish _ :: tr => k == 0 && serialFrom 0 tr
  | k, TickAction.schedule :: tr => k == 0 && serialFrom 0 tr

/-- Sample inputs: the dimensions and box of the spec's end-to-end
scenario (1280x720 native frame rendered at 640x360). -/
def sampleDims : VideoDims :=
  { offsetWidth := 640, offsetHeight := 360, videoWidth := 1280, videoHeight := 720 }

/-- Sample bounding box from the spec's end-to-end scenario. -/
def sampleBox : Box := { xMin := 100, yMin := 50, width := 200, height := 200 }

/-- A state in which the loop is running: `DETECTING`, a frame pending, the
detector loaded and the camera tracks open. -/
def runningState : AppState :=
  { status := Status.DETECTING
    errorMessage := ""
    hatPosition := initialHatPosition
    pending := true
    detectorLoaded := true
    tracksOpen := true
    releaseCount := 0 }

/-- Helper: once no frame is pending, the loop fires no further tick. -/
theorem runLoop_not_pending (es : List TickEnv) (s : AppState)
    (h : s.pending = false) : runLoop es s = (s, []) := by
  cases es <;> simp [runLoop, h]

/-- C1: for every bounding box with nonnegative coordinates and extents and
every positive native resolution, the tick placement computation yields
`left = (xMin + width/2) * scaleX`, `top = yMin * scaleY`, an output width
of `width * scaleX * K_WIDTH` with `K_WIDTH > 1` fixed, and an output
height equal to the output width, where `scaleX = displayWidth/nativeWidth`
and `scaleY = displayHeight/nativeHeight`. -/
theorem computeHatPosition_formulas (box : Box) (dims : VideoDims)
    (hx : 0 ≤ box.xMin) (hy : 0 ≤ box.yMin)
    (hw : 0 ≤ box.width) (hh : 0 ≤ box.height)
    (hW : 0 < dims.videoWidth) (hH : 0 < dims.videoHeight) :
    (computeHatPosition dims box).left =
      (box.xMin + box.width / 2) * (dims.offsetWidth / dims.videoWidth) ∧
    (computeHatPosition dims box).top =
      box.yMin * (dims.offsetHeight / dims.videoHeight) ∧
    (computeHatPosition dims box).width =
      box.width * (dims.offsetWidth / dims.videoWidth) * K_WIDTH ∧
    1 < K_WIDTH ∧
    (computeHatPosition dims box).height = (computeHatPosition dims box).width := by
  refine ⟨?_, ?_, ?_, ?_, ?_⟩
  · show box.xMin * (dims.offsetWidth / dims.videoWidth) +
        box.width * (dims.offsetWidth / dims.videoWidth) / 2 = _
    ring
  · rfl
  · show box.width * (dims.offsetWidth / dims.videoWidth) * K_WIDTH = _
    ring
  · norm_num [K_WIDTH]
  · rfl

/-- Witness for C1 at the spec's scenario inputs: a 1280x720 native frame
rendered at 640x360 and the box (100, 50, 200, 200). -/
theorem computeHatPosition_formulas_witness :
    (computeHatPosition sampleDims sampleBox).left =
      (sampleBox.xMin + sampleBox.width / 2) *
        (sampleDims.offsetWidth / sampleDims.videoWidth) ∧
    (computeHatPosition sampleDims sampleBox).top =
      sampleBox.yMin * (sampleDims.offsetHeight / sampleDims.videoHeight) ∧
    (computeHatPosition sampleDims sampleBox).width =
      sampleBox.width * (sampleDims.offsetWidth / sampleDims.videoWidth) * K_WIDTH ∧
    1 < K_WIDTH ∧
    (computeHatPosition sampleDims sampleBox).height =
      (computeHatPosition sampleDims sampleBox).width :=
  computeHatPosition_formulas sampleBox sampleDims
    (by norm_num [sampleBox]) (by norm_num [sampleBox])
    (by norm_num [sampleBox]) (by norm_num [sampleBox])
    (by norm_num [sampleDims]) (by norm_num [sampleDims])

/-- C3: on a tick whose detection call resolves with an empty list, the
published placement has `display:'none'` and every geometry field (top,
left, width, height, transform) keeps its value from the previously
published placement; the tick publishes exactly that and reschedules. -/
theorem empty_result_hides_preserving_geometry (dims : VideoDims) (s : AppState) :
    ((detectFaceTick ⟨true, true, dims, DetectResult.ok []⟩ s).1.hatPosition.display
        = Display.none) ∧
    ((detectFaceTick ⟨true, true, dims, DetectResult.ok []⟩ s).1.hatPosition.top
        = s.hatPosition.top) ∧
    ((detectFaceTick ⟨true, true, dims, DetectResult.ok []⟩ s).1.hatPosition.left
        = s.hatPosition.left) ∧
    ((detectFaceTick ⟨true, true, dims, DetectResult.ok []⟩ s).1.hatPosition.width
        = s.hatPosition.width) ∧
    ((detectFaceTick ⟨true, true, dims, DetectResult.ok []⟩ s).1.hatPosition.height
        = s.hatPosition.height) ∧
    ((detectFaceTick ⟨true, true, dims, DetectResult.ok []⟩ s).1.hatPosition.transform
        = s.hatPosition.transform) ∧
    ((detectFaceTick ⟨true, true, dims, DetectResult.ok []⟩ s).2
        = [TickAction.detectStart, TickAction.detectResolve,
           TickAction.publish
             (detectFaceTick ⟨true, true, dims, DetectResult.ok []⟩ s).1.hatPosition,
           TickAction.schedule]) :=
  ⟨rfl, rfl, rfl, rfl, rfl, rfl, rfl⟩

/-- C4: on a tick whose detection call resolves with a non-empty list, only
the box at index 0 determines the published placement: two result lists with
the same head but arbitrary different tails produce identical tick
outcomes. -/
theorem first_box_determines_placement (b : Box) (t1 t2 : List Box)
    (dims : VideoDims) (s : AppState) :
    detectFaceTick ⟨true, true, dims, DetectResult.ok (b :: t1)⟩ s =
    detectFaceTick ⟨true, true, dims, DetectResult.ok (b :: t2)⟩ s := rfl

/-- C10: on a tick where the 2d drawing context cannot be obtained, the tick
makes no detection call and publishes nothing, leaves every state field
(including the status, so no error state) unchanged, and unconditionally
reschedules the next tick. -/
theorem ctx_unavailable_drops_and_continues (dims : VideoDims)
    (r : DetectResult) (s : AppState) :
    detectFaceTick ⟨true, false, dims, r⟩ s =
      ({ s with pending := true }, [TickAction.schedule]) := rfl

/-- C2: on a tick whose detection call rejects, the tick sets the error
message, moves the status to `ERROR`, leaves no frame pending (the
`cancelAnimationFrame` plus early return on lines 98-101), performs no
publish and no reschedule, and the loop fires no further tick — in
particular no further detection call — whatever environments follow. -/
theorem detection_failure_stops_loop (dims : VideoDims) (s : AppState)
    (es : List TickEnv) :
    ((detectFaceTick ⟨true, true, dims, DetectResult.err⟩ s).1.status
        = Status.ERROR) ∧
    ((detectFaceTick ⟨true, true, dims, DetectResult.err⟩ s).1.errorMessage
        = detectErrorMessage) ∧
    ((detectFaceTick ⟨true, true, dims, DetectResult.err⟩ s).1.pending = false) ∧
    ((detectFaceTick ⟨true, true, dims, DetectResult.err⟩ s).2
        = [TickAction.detectStart, TickAction.detectResolve]) ∧
    (runLoop es (detectFaceTick ⟨true, true, dims, DetectResult.err⟩ s).1
        = ((detectFaceTick ⟨true, true, dims, DetectResult.err⟩ s).1, [])) :=
  ⟨rfl, rfl, rfl, rfl, runLoop_not_pending es _ rfl⟩

/-- C5 counterexample: a tick on a running state whose frame source is not
readable (`refsReady = false`, e.g. disposed or metadata not ready) does
schedule a next tick — a pending frame remains and a `schedule` action is
emitted — refuting the claim that such a tick is fatal and does not
schedule a next tick. -/
theorem unreadable_source_still_schedules_cex :
    ((detectFaceTick ⟨false, true, sampleDims, DetectResult.ok []⟩
        runningState).1.pending = true) ∧
    ((detectFaceTick ⟨false, true, sampleDims, DetectResult.ok []⟩
        runningState).2 = [TickAction.schedule]) :=
  ⟨rfl, rfl⟩

/-- C5 amended: on a tick where the frame source is not readable, the tick
performs no detection call and publishes nothing, leaves the state unchanged
apart from the pending frame, and unconditionally reschedules the next
tick — the loop keeps running rather than stopping. -/
theorem unreadable_source_skips_and_reschedules (c : Bool) (dims : VideoDims)
    (r : DetectResult) (s : AppState) :
    detectFaceTick ⟨false, c, dims, r⟩ s =
      ({ s with pending := true }, [TickAction.schedule]) := rfl

/-- C7: when webcam acquisition fails, the startup sequence sets the webcam
error message and `ERROR` status and returns before the model-loading step,
so the detector is never loaded; `handleStart` then refuses to start (it
requires `READY`), no frame is ever pending, and the loop fires no tick and
hence no detection call, whatever the model-load outcome would have been and
whatever tick environments follow. -/
theorem acquisition_failure_never_detects (loadOk : Bool) (es : List TickEnv) :
    ((initSession ⟨false, loadOk⟩ initialAppState).status = Status.ERROR) ∧
    ((initSession ⟨false, loadOk⟩ initialAppState).errorMessage
        = webcamErrorMessage) ∧
    ((initSession ⟨false, loadOk⟩ initialAppState).detectorLoaded = false) ∧
    (handleStart (initSession ⟨false, loadOk⟩ initialAppState)
        = initSession ⟨false, loadOk⟩ initialAppState) ∧
    (runLoop es (handleStart (initSession ⟨false, loadOk⟩ initialAppState))
        = (initSession ⟨false, loadOk⟩ initialAppState, [])) :=
  ⟨rfl, rfl, rfl, rfl, runLoop_not_pending es _ rfl⟩

/-- C6 counterexample: teardown runs while a detection call is in flight
(after the tick passed its guards and started the call, before it
resolved). Teardown cancels the pending frame, so the loop has left the
running state — yet when the in-flight call resolves with a face, the
continuation still publishes a placement and even reschedules a next tick,
refuting the claim that no placement is published after stop/teardown. -/
theorem teardown_inflight_publish_cex :
    ((teardown runningState).pending = false) ∧
    ((resumeAfterDetect ⟨true, true, sampleDims, DetectResult.ok [sampleBox]⟩
        (teardown runningState)).2
      = [TickAction.detectResolve,
         TickAction.publish (computeHatPosition sampleDims sampleBox),
         TickAction.schedule]) :=
  ⟨rfl, rfl⟩

/-- C6 amended: the post-await continuation of `detectFace` has no
stopped-state guard, so if stop/teardown occurs while a detection call is in
flight, the call on resolving with a non-empty result still publishes the
computed placement and reschedules a next tick; teardown does not suppress
the in-flight publish. -/
theorem teardown_inflight_still_publishes (b : Box) (t : List Box)
    (dims : VideoDims) (s : AppState) :
    (resumeAfterDetect ⟨true, true, dims, DetectResult.ok (b :: t)⟩
        (teardown s)).2
      = [TickAction.detectResolve,
         TickAction.publish (computeHatPosition dims b),
         TickAction.schedule] ∧
    (resumeAfterDetect ⟨true, true, dims, DetectResult.ok (b :: t)⟩
        (teardown s)).1.pending = true :=
  ⟨rfl, rfl⟩

/-- C8 counterexample: a detection failure stops the loop (no frame remains
pending) but releases nothing — the camera tracks are still open and the
release count is still zero — refuting the claim that no camera track
remains open in every state where the loop is not running. -/
theorem stopped_loop_track_still_open_cex :
    ((detectFaceTick ⟨true, true, sampleDims, DetectResult.err⟩
        runningState).1.pending = false) ∧
    ((detectFaceTick ⟨true, true, sampleDims, DetectResult.err⟩
        runningState).1.status = Status.ERROR) ∧
    ((detectFaceTick ⟨true, true, sampleDims, DetectResult.err⟩
        runningState).1.tracksOpen = true) ∧
    ((detectFaceTick ⟨true, true, sampleDims, DetectResult.err⟩
        runningState).1.releaseCount = 0) :=
  ⟨rfl, rfl, rfl, rfl⟩

/-- C8 amended: teardown cancels any pending scheduled tick and releases the
camera tracks, exactly once when they were open (a second teardown changes
nothing); but the loop can be stopped without teardown — e.g. by a detection
failure — and in such non-running states the camera tracks remain open until
teardown. -/
theorem teardown_cancels_and_releases_once (s : AppState) :
    ((teardown s).pending = false) ∧
    ((teardown s).tracksOpen = false) ∧
    (s.tracksOpen = true → (teardown s).releaseCount = s.releaseCount + 1) ∧
    (teardown (teardown s) = teardown s) := by
  obtain ⟨st, em, hp, p, d, tr, rc⟩ := s
  cases tr <;> simp [teardown]

/-- Witness for C8 amended: teardown of the running state (tracks open,
frame pending) leaves no pending frame, closes the tracks and records
exactly one release. -/
theorem teardown_cancels_and_releases_once_witness :
    ((teardown runningState).pending = false) ∧
    ((teardown runningState).tracksOpen = false) ∧
    ((teardown runningState).releaseCount = 1) ∧
    (teardown (teardown runningState) = teardown runningState) :=
  ⟨(teardown_cancels_and_releases_once runningState).1,
   (teardown_cancels_and_releases_once runningState).2.1,
   (teardown_cancels_and_releases_once runningState).2.2.1 rfl,
   (teardown_cancels_and_releases_once runningState).2.2.2⟩

/-- Helper: prepending one tick's action trace to a serialized trace keeps
it serialized — every tick's trace opens and closes its detection call (if
any) before anything else follows. -/
theorem serialFrom_tick_append (e : TickEnv) (s : AppState)
    (tr : List TickAction) :
    serialFrom 0 ((detectFaceTick e s).2 ++ tr) = serialFrom 0 tr := by
  obtain ⟨rr, cok, dims, res⟩ := e
  cases rr
  · rfl
  · cases cok
    · rfl
    · cases res with
      | ok faces => cases faces <;> rfl
      | err => rfl

/-- C9: across every sequence of ticks, the loop's action trace is strictly
serialized: at most one detection call is in flight at any point, a new call
starts only when none is in flight, and publishes and the scheduling of the
next tick happen only after the previous tick's call has fully resolved; the
sequential trace publishes placements in the order the ticks fired. -/
theorem loop_serialized (es : List TickEnv) (s : AppState) :
    serialFrom 0 (runLoop es s).2 = true := by
  induction es generalizing s with
  | nil => rfl
  | cons e es ih =>
    cases hp : s.pending
    · simp [runLoop, hp, serialFrom]
    · simp only [runLoop, hp, if_pos]
      rw [serialFrom_tick_append]
      exact ih _
